import Mathlib

/-!
Verification development for the `pulumi_k3s` repository: a shallow
embedding of the program's data model and operations (power operations on
Proxmox VMs, static IP address calculation, the SSH client state machine,
the provisioning sequencer, the credential-fallback connection loop, the
Ansible inventory generator, and the fleet orchestration control flow),
together with theorems settling the specification's claims against it.
-/

namespace PulumiK3s

/-! ## Power operations (`src/proxmox/vm.py`, `ProxmoxVM.power_operation`) -/

/-- Power operations accepted by `ProxmoxVM.power_operation`
(the `VMPowerOp` literal type in `src/proxmox/vm.py`). -/
inductive VMPowerOp where
  | start
  | stop
  | shutdown
  | reset
  | reboot
deriving Repr, DecidableEq

/-- First stage of `power_operation` (vm.py lines 269-276): when the guest
agent is not installed, `shutdown` is replaced by `stop` and `reboot` by
`reset`; otherwise the operation is unchanged. -/
def downgradeOp (hasAgent : Bool) (op : VMPowerOp) : VMPowerOp :=
  if !hasAgent then
    match op with
    | .shutdown => .stop
    | .reboot => .reset
    | o => o
  else op

/-- Embedding of `ProxmoxVM.power_operation` (vm.py lines 258-328): the
operation is first downgraded when the agent is absent, then the verb
actually submitted to the hypervisor is decided from the VM's reported
run state.  `none` models the `return None` branches (no verb submitted). -/
def power_operation (hasAgent : Bool) (op : VMPowerOp) (vmState : String) : Option String :=
  match downgradeOp hasAgent op with
  | .start => if vmState = "running" then none else some "start"
  | .stop => if vmState ≠ "running" then none else some "stop"
  | .reset => if vmState ≠ "running" then some "start" else some "reset"
  | .shutdown => if vmState ≠ "running" then none else some "shutdown"
  | .reboot => if vmState ≠ "running" then some "start" else some "reboot"

/-! ## Static IP calculation (`src/scripts/ansible.py`,
`AnsibleManager.calculate_ip_addresses`) -/

/-- Split a list of characters on a separator character (model of Python
string splitting used by `ipaddress` when parsing dotted-quad text). -/
def splitOnChar (sep : Char) : List Char → List (List Char)
  | [] => [[]]
  | c :: rest =>
      let tail := splitOnChar sep rest
      if c = sep then [] :: tail
      else
        match tail with
        | [] => [[c]]
        | g :: gs => (c :: g) :: gs

/-- Parse a decimal octet: nonempty, digits only, value at most 255, and no
leading zero (as `ipaddress.IPv4Network` enforces). -/
def parseOctet (cs : List Char) : Option Nat :=
  if cs.isEmpty then none
  else if !cs.all (fun c => c.isDigit) then none
  else if cs.length > 1 && cs.headD '0' = '0' then none
  else
    let v := cs.foldl (fun acc c => acc * 10 + (c.toNat - 48)) 0
    if v ≤ 255 then some v else none

/-- Parse a dotted-quad IPv4 address into its 32-bit numeric value. -/
def parseIPv4 (cs : List Char) : Option Nat :=
  match splitOnChar '.' cs with
  | [a, b, c, d] =>
      match parseOctet a, parseOctet b, parseOctet c, parseOctet d with
      | some x, some y, some z, some w =>
          some (x * 16777216 + y * 65536 + z * 256 + w)
      | _, _, _, _ => none
  | _ => none

/-- Parse a decimal prefix length (0-32, digits only, no leading zero). -/
def parsePrefixLen (cs : List Char) : Option Nat :=
  if cs.isEmpty then none
  else if !cs.all (fun c => c.isDigit) then none
  else if cs.length > 1 && cs.headD '0' = '0' then none
  else
    let v := cs.foldl (fun acc c => acc * 10 + (c.toNat - 48)) 0
    if v ≤ 32 then some v else none

/-- Model of `ipaddress.IPv4Network(network)` with its default strict
parsing: an address with an optional `/len`, where all host bits of the
address must be zero.  Returns the numeric network address and length. -/
def parseIPv4Network (s : String) : Option (Nat × Nat) :=
  match splitOnChar '/' s.data with
  | [addr] =>
      match parseIPv4 addr with
      | some a => some (a, 32)
      | none => none
  | [addr, len] =>
      match parseIPv4 addr, parsePrefixLen len with
      | some a, some l =>
          if a % 2 ^ (32 - l) = 0 then some (a, l) else none
      | _, _ => none
  | _ => none

/-- Render a 32-bit numeric IPv4 address back to dotted-quad text
(Python's `str` on an `IPv4Address`). -/
def ipToString (n : Nat) : String :=
  toString (n / 16777216 % 256) ++ "." ++ toString (n / 65536 % 256) ++ "." ++
    toString (n / 256 % 256) ++ "." ++ toString (n % 256)

/-- Embedding of `AnsibleManager.calculate_ip_addresses` (ansible.py lines
220-259).  The network string is parsed; on any parse failure, or if any of
the `network_address + offset` additions would leave the 32-bit address
space (Python raises there), the `except` branch returns `([], [])`.
Otherwise `num_masters + num_workers` consecutive addresses are produced
starting at `network_address + start_ip_offset`, the first `num_masters`
going to masters and the rest to workers.  The `gateway` argument is
accepted and unused, as in the source. -/
def calculate_ip_addresses (network : String) (gateway : String)
    (start_ip_offset num_masters num_workers : Nat) : List String × List String :=
  match parseIPv4Network network with
  | none => ([], [])
  | some (addr, _) =>
      let total := num_masters + num_workers
      if 0 < total ∧ 4294967296 ≤ addr + start_ip_offset + (total - 1) then
        ([], [])
      else
        let all_ips := (List.range total).map (fun i => ipToString (addr + start_ip_offset + i))
        (all_ips.take num_masters, all_ips.drop num_masters)

/-! ## Python error values raised by the embedded code -/

/-- Exceptions that the embedded fragments can raise: the explicit
`RuntimeError` in `SSHClient`, the `AttributeError` from calling a method
on `None`, a `TypeError` from an unexpected keyword argument, and a
`KeyError` from a missing dictionary key. -/
inductive PyErr where
  | runtimeError (msg : String)
  | attributeError (msg : String)
  | typeError (msg : String)
  | keyError (key : String)
deriving Repr, DecidableEq

/-! ## SSH client (`src/scripts/ssh.py`, class `SSHClient`) -/

/-- Connection-relevant state of an `SSHClient`: whether `self.client`
currently holds a paramiko client object (`clientSet = true`) or `None`
(`clientSet = false`, the initial state and the state after
`disconnect`). -/
structure SSHClientState where
  clientSet : Bool
deriving Repr, DecidableEq

/-- A fresh `SSHClient` as produced by `__init__`: `self.client = None`. -/
def freshSSHClient : SSHClientState := ⟨false⟩

namespace SSHClient

/-- Attempt loop of `connect` (ssh.py lines 57-84): `outcome i = true`
means the `i`-th paramiko connection attempt succeeds, `false` that it
raises (the exception is caught in the loop).  The first success returns
`true`; exhausting the attempts returns `false`. -/
def connectAttempts (outcome : Nat → Bool) (idx : Nat) : Nat → Bool
  | 0 => false
  | n + 1 => if outcome idx then true else connectAttempts outcome (idx + 1) n

/-- Embedding of `SSHClient.connect` (ssh.py lines 43-84).  The method
assigns `self.client = paramiko.SSHClient()` before the attempt loop, so
the returned state has `clientSet = true` whether or not any attempt
succeeded. -/
def connect (st : SSHClientState) (outcome : Nat → Bool) (retry_attempts : Nat) :
    SSHClientState × Bool :=
  let _ := st
  (⟨true⟩, connectAttempts outcome 0 retry_attempts)

/-- Embedding of `SSHClient.disconnect` (ssh.py lines 86-90): the client
object is closed and the field reset to `None`. -/
def disconnect (st : SSHClientState) : SSHClientState :=
  let _ := st
  ⟨false⟩

/-- The `RuntimeError` raised by `execute_command`, `upload_file` and
`download_file` when `self.client` is `None`. -/
def errNotConnected : PyErr := .runtimeError "Not connected. Call connect() first."

/-- Outcome of the paramiko `exec_command` interaction inside
`execute_command`: either a remote result or a transport-level exception. -/
inductive ExecOutcome where
  | result (code : Int) (out : String) (err : String)
  | raised (msg : String)
deriving Repr, DecidableEq

/-- Embedding of `SSHClient.execute_command` (ssh.py lines 92-113): raises
`RuntimeError` when `self.client` is `None`; otherwise a transport-level
exception is caught and turned into the result `(-1, "", message)`, and a
remote result is returned verbatim. -/
def execute_command (st : SSHClientState) (o : ExecOutcome) :
    Except PyErr (Int × String × String) :=
  if st.clientSet then
    match o with
    | .result code out err => .ok (code, out, err)
    | .raised msg => .ok (-1, "", msg)
  else .error errNotConnected

/-- Outcome of an SFTP transfer inside `upload_file`/`download_file`. -/
inductive TransferOutcome where
  | done
  | raised (msg : String)
deriving Repr, DecidableEq

/-- Embedding of `SSHClient.upload_file` (ssh.py lines 115-136): raises
`RuntimeError` when `self.client` is `None`; otherwise an SFTP exception
yields `false` and success yields `true`. -/
def upload_file (st : SSHClientState) (o : TransferOutcome) : Except PyErr Bool :=
  if st.clientSet then
    match o with
    | .done => .ok true
    | .raised _ => .ok false
  else .error errNotConnected

/-- Embedding of `SSHClient.download_file` (ssh.py lines 138-159), with
the same guard and exception behaviour as `upload_file`. -/
def download_file (st : SSHClientState) (o : TransferOutcome) : Except PyErr Bool :=
  if st.clientSet then
    match o with
    | .done => .ok true
    | .raised _ => .ok false
  else .error errNotConnected

end SSHClient

/-! ## Provisioning sequencer (`src/scripts/provision.py`, class
`VMProvisioner`)

The remote host is abstracted as an environment mapping each command
string to the `(exit code, stdout, stderr)` triple that
`execute_command` returns for it; the sequencer itself is embedded
faithfully over that environment. -/

/-- Result triple of one remote command, as returned by
`SSHClient.execute_command`. -/
structure ExecResult where
  code : Int
  out : String
  err : String
deriving Repr, DecidableEq

/-- The remote host, as seen through `execute_command`. -/
abbrev Env := String → ExecResult

/-- Python `str.strip()` whitespace test (space, tab, newline, carriage
return, vertical tab, form feed). -/
def isPySpace (c : Char) : Bool :=
  c = ' ' || c = '\t' || c = '\n' || c = '\x0d' || c = '\x0b' || c = '\x0c'

/-- Python `str.strip()`: drop leading and trailing whitespace. -/
def pyStrip (s : String) : String :=
  String.mk (((s.data.dropWhile isPySpace).reverse.dropWhile isPySpace).reverse)

/-- Command run by `_update_packages` (provision.py line 256). -/
def updateCmd : String := "sudo apt-get update"

/-- Baseline package set installed by `_install_essentials`
(provision.py lines 270-282). -/
def essentialPackages : List String :=
  ["curl", "wget", "git", "vim", "htop", "net-tools", "ca-certificates",
   "gnupg", "lsb-release", "apt-transport-https", "software-properties-common"]

/-- Command run by `_install_essentials` (provision.py line 284). -/
def installEssentialsCmd : String :=
  "sudo apt-get install -y " ++ String.intercalate " " essentialPackages

/-- Commands of `_create_admin_user` (provision.py lines 103-177). -/
def adduserCmd (u : String) : String :=
  "sudo adduser --gecos \x27\x27 --disabled-password " ++ u

/-- Command granting sudo group membership (provision.py line 133). -/
def usermodCmd (u : String) : String := "sudo usermod -aG sudo " ++ u

/-- Command setting the admin password (provision.py line 142). -/
def chpasswdCmd (u p : String) : String :=
  "echo \x27" ++ u ++ ":" ++ p ++ "\x27 | sudo chpasswd"

/-- Command creating the admin `.ssh` directory (provision.py line 153). -/
def mkdirSshCmd (u : String) : String := "sudo mkdir -p /home/" ++ u ++ "/.ssh"

/-- Command installing the admin authorized key (provision.py line 156). -/
def authKeysCmd (u k : String) : String :=
  "echo \x27" ++ k ++ "\x27 | sudo tee /home/" ++ u ++ "/.ssh/authorized_keys > /dev/null"

/-- Permission commands for the admin key material (lines 162-164). -/
def chmod700Cmd (u : String) : String := "sudo chmod 700 /home/" ++ u ++ "/.ssh"

/-- Second permission command for the admin key material (line 163). -/
def chmod600Cmd (u : String) : String :=
  "sudo chmod 600 /home/" ++ u ++ "/.ssh/authorized_keys"

/-- Ownership command for the admin key material (line 164). -/
def chownCmd (u : String) : String :=
  "sudo chown -R " ++ u ++ ":" ++ u ++ " /home/" ++ u ++ "/.ssh"

/-- Command writing the passwordless-sudo drop-in (provision.py line 168). -/
def sudoersCmd (u : String) : String :=
  "echo \x27" ++ u ++ " ALL=(ALL) NOPASSWD:ALL\x27 | sudo tee /etc/sudoers.d/" ++ u ++ " > /dev/null"

/-- Permission command for the sudoers drop-in (provision.py line 174). -/
def chmod440Cmd (u : String) : String := "sudo chmod 440 /etc/sudoers.d/" ++ u

/-- Commands of `_install_qemu_agent` (provision.py lines 290-320). -/
def agentInstallCmd : String := "sudo apt-get install -y qemu-guest-agent"

/-- Service-enable command of `_install_qemu_agent` (line 305). -/
def agentEnableCmd : String := "sudo systemctl enable qemu-guest-agent"

/-- Service-start command of `_install_qemu_agent` (line 310). -/
def agentStartCmd : String := "sudo systemctl start qemu-guest-agent"

/-- Timezone command (provision.py line 82). -/
def timezoneCmd : String := "sudo timedatectl set-timezone UTC"

/-- Locale commands (provision.py lines 85-86). -/
def localeGenCmd : String := "sudo locale-gen en_US.UTF-8"

/-- Second locale command (provision.py line 86). -/
def updateLocaleCmd : String := "sudo update-locale LANG=en_US.UTF-8"

/-- Swap-activity probe of `_configure_swap` (provision.py line 182). -/
def swapShowCmd : String := "swapon --show"

/-- Swap backing-file allocation (provision.py line 190, default 2048MB). -/
def fallocateCmd : String := "sudo fallocate -l 2048M /swapfile"

/-- Swap file permission command (provision.py line 191). -/
def chmodSwapCmd : String := "sudo chmod 600 /swapfile"

/-- Swap formatting command (provision.py line 192). -/
def mkswapCmd : String := "sudo mkswap /swapfile"

/-- Swap activation command (provision.py line 193). -/
def swaponCmd : String := "sudo swapon /swapfile"

/-- Swap persistence command (provision.py line 196). -/
def fstabCmd : String := "echo \"/swapfile none swap sw 0 0\" | sudo tee -a /etc/fstab"

/-- Swappiness tuning command (provision.py line 199). -/
def swappinessCmd : String := "echo \x27vm.swappiness=10\x27 | sudo tee -a /etc/sysctl.conf"

/-- Sysctl reload command (provision.py line 200). -/
def sysctlPCmd : String := "sudo sysctl -p"

/-- The seven mutating commands of the swap-setup branch, in order
(provision.py lines 190-200). -/
def swapMutatingCmds : List String :=
  [fallocateCmd, chmodSwapCmd, mkswapCmd, swaponCmd, fstabCmd, swappinessCmd, sysctlPCmd]

/-- Directives appended by `_secure_ssh` (provision.py lines 204-211). -/
def sshdConfigLines : List String :=
  ["PermitRootLogin no", "PasswordAuthentication no", "X11Forwarding no",
   "MaxAuthTries 5", "ClientAliveInterval 300", "ClientAliveCountMax 2"]

/-- First whitespace-separated word of a directive (`line.split()[0]`). -/
def firstWord (s : String) : String :=
  String.mk (((splitOnChar ' ' s.data).filter (fun g => !g.isEmpty)).headD [])

/-- Scratch-file command of `_secure_ssh` (provision.py line 217). -/
def sshdTmpCmd : String :=
  "echo \x27" ++ String.intercalate "\n" sshdConfigLines ++ "\x27 > /tmp/sshd_config_extra"

/-- Guarded append command for one sshd directive (provision.py line 222). -/
def grepTeeCmd (line : String) : String :=
  "grep -q \x27" ++ firstWord line ++ "\x27 /etc/ssh/sshd_config || echo \x27" ++
    line ++ "\x27 | sudo tee -a /etc/ssh/sshd_config"

/-- Cleanup command of `_secure_ssh` (provision.py line 225). -/
def rmSshdTmpCmd : String := "rm /tmp/sshd_config_extra"

/-- Daemon restart command of `_secure_ssh` (provision.py line 226). -/
def restartSshdCmd : String := "sudo systemctl restart sshd"

/-- All commands issued by `_secure_ssh`, in order; none of their exit
codes is inspected. -/
def secureSshCmds : List String :=
  [sshdTmpCmd] ++ sshdConfigLines.map grepTeeCmd ++ [rmSshdTmpCmd, restartSshdCmd]

/-- All commands issued by `_configure_firewall`, in order (provision.py
lines 228-246); none of their exit codes is inspected. -/
def firewallCmds : List String :=
  ["sudo apt-get install -y ufw", "sudo ufw default deny incoming",
   "sudo ufw default allow outgoing", "sudo ufw allow ssh",
   "sudo ufw allow 6443/tcp", "sudo ufw allow 8472/udp",
   "sudo ufw allow 10250/tcp", "sudo ufw --force enable"]

/-- Outcome of one provisioning step: whether it reported success, and the
commands it sent to the remote host, in order. -/
abbrev StepResult := Bool × List String

/-- Embedding of `VMProvisioner._update_packages` (provision.py lines
248-260): one command, nonzero exit is failure. -/
def update_packages (env : Env) : StepResult :=
  (decide ((env updateCmd).code = 0), [updateCmd])

/-- Embedding of `VMProvisioner._install_essentials` (provision.py lines
262-288): one command, nonzero exit is failure. -/
def install_essentials (env : Env) : StepResult :=
  (decide ((env installEssentialsCmd).code = 0), [installEssentialsCmd])

/-- Tail of `_create_admin_user`: the sudoers drop-in write (checked) and
its permission command (unchecked) (provision.py lines 166-177). -/
def adminSudoersStep (env : Env) (u : String) (acc : List String) : StepResult :=
  if (env (sudoersCmd u)).code = 0 then (true, acc ++ [sudoersCmd u, chmod440Cmd u])
  else (false, acc ++ [sudoersCmd u])

/-- Key-installation part of `_create_admin_user` (provision.py lines
149-164): the `mkdir` and the permission/ownership commands are unchecked,
the `tee` into `authorized_keys` is checked. -/
def adminKeyStep (env : Env) (u : String) (ssh_key : Option String) (acc : List String) :
    StepResult :=
  match ssh_key with
  | none => adminSudoersStep env u acc
  | some k =>
      if (env (authKeysCmd u k)).code = 0 then
        adminSudoersStep env u
          (acc ++ [mkdirSshCmd u, authKeysCmd u k, chmod700Cmd u, chmod600Cmd u, chownCmd u])
      else (false, acc ++ [mkdirSshCmd u, authKeysCmd u k])

/-- Embedding of `VMProvisioner._create_admin_user` (provision.py lines
103-177): requires a nonempty username and at least one of password or
key, creates the account, grants sudo, optionally sets the password,
optionally installs the key, and writes the sudoers drop-in. -/
def create_admin_user (env : Env) (u : String) (password ssh_key : Option String) :
    StepResult :=
  if u = "" then (false, [])
  else if password.isNone && ssh_key.isNone then (false, [])
  else if (env (adduserCmd u)).code = 0 then
    if (env (usermodCmd u)).code = 0 then
      match password with
      | some p =>
          if (env (chpasswdCmd u p)).code = 0 then
            adminKeyStep env u ssh_key [adduserCmd u, usermodCmd u, chpasswdCmd u p]
          else (false, [adduserCmd u, usermodCmd u, chpasswdCmd u p])
      | none => adminKeyStep env u ssh_key [adduserCmd u, usermodCmd u]
    else (false, [adduserCmd u, usermodCmd u])
  else (false, [adduserCmd u])

/-- Embedding of `VMProvisioner._install_qemu_agent` (provision.py lines
290-320): three commands, each checked in turn. -/
def install_qemu_agent (env : Env) : StepResult :=
  if (env agentInstallCmd).code = 0 then
    if (env agentEnableCmd).code = 0 then
      if (env agentStartCmd).code = 0 then
        (true, [agentInstallCmd, agentEnableCmd, agentStartCmd])
      else (false, [agentInstallCmd, agentEnableCmd, agentStartCmd])
    else (false, [agentInstallCmd, agentEnableCmd])
  else (false, [agentInstallCmd])

/-- Commands issued by `VMProvisioner._configure_swap` against a stateless
environment (provision.py lines 179-200): if the probe reports active swap
(exit 0 with nonempty stripped output), only the probe runs; otherwise the
seven mutating commands follow it.  No exit code after the probe is
inspected. -/
def configure_swap_cmds (env : Env) : List String :=
  if (env swapShowCmd).code = 0 ∧ pyStrip (env swapShowCmd).out ≠ "" then [swapShowCmd]
  else swapShowCmd :: swapMutatingCmds

/-- Result of `VMProvisioner.provision`: the returned boolean, the full
ordered command trace, and whether `set_agent_installed(True)` was called
on the VM handle. -/
structure ProvisionResult where
  ok : Bool
  trace : List String
  agentMarked : Bool
deriving Repr, DecidableEq

/-- Embedding of `VMProvisioner.provision` (provision.py lines 35-101):
package update, essential packages, optional admin user, guest agent (on
whose success the VM handle is marked), then the unchecked
timezone/locale, swap, sshd-hardening and firewall steps.  A failure in
one of the first four steps returns `False` at once; the exit codes of
every later command are ignored. -/
def provision (env : Env) (admin_username admin_password admin_ssh_key : Option String) :
    ProvisionResult :=
  let s1 := update_packages env
  if s1.1 then
    let s2 := install_essentials env
    if s2.1 then
      let s3 :=
        match admin_username with
        | some u => create_admin_user env u admin_password admin_ssh_key
        | none => (true, [])
      if s3.1 then
        let s4 := install_qemu_agent env
        if s4.1 then
          ⟨true,
            s1.2 ++ s2.2 ++ s3.2 ++ s4.2 ++
              [timezoneCmd, localeGenCmd, updateLocaleCmd] ++
              configure_swap_cmds env ++ secureSshCmds ++ firewallCmds,
            true⟩
        else ⟨false, s1.2 ++ s2.2 ++ s3.2 ++ s4.2, false⟩
      else ⟨false, s1.2 ++ s2.2 ++ s3.2, false⟩
    else ⟨false, s1.2 ++ s2.2, false⟩
  else ⟨false, s1.2, false⟩

/-- The full trace of `_create_admin_user` when every checked command
succeeds, for a given password/key configuration. -/
def adminFullTrace (u : String) (password ssh_key : Option String) : List String :=
  [adduserCmd u, usermodCmd u] ++
    (match password with | some p => [chpasswdCmd u p] | none => []) ++
    (match ssh_key with
     | some k => [mkdirSshCmd u, authKeysCmd u k, chmod700Cmd u, chmod600Cmd u, chownCmd u]
     | none => []) ++
    [sudoersCmd u, chmod440Cmd u]

/-- The checked commands of a provisioning run: the ones whose nonzero
exit code aborts the sequence. -/
def checkedCmds (admin_username admin_password admin_ssh_key : Option String) : List String :=
  [updateCmd, installEssentialsCmd] ++
    (match admin_username with
     | some u =>
         [adduserCmd u, usermodCmd u] ++
           (match admin_password with | some p => [chpasswdCmd u p] | none => []) ++
           (match admin_ssh_key with | some k => [authKeysCmd u k] | none => []) ++
           [sudoersCmd u]
     | none => []) ++
    [agentInstallCmd, agentEnableCmd, agentStartCmd]

/-- The full ordered command trace of a successful provisioning run. -/
def provisionFullTrace (env : Env) (admin_username admin_password admin_ssh_key : Option String) :
    List String :=
  [updateCmd, installEssentialsCmd] ++
    (match admin_username with
     | some u => adminFullTrace u admin_password admin_ssh_key
     | none => []) ++
    [agentInstallCmd, agentEnableCmd, agentStartCmd,
     timezoneCmd, localeGenCmd, updateLocaleCmd] ++
    configure_swap_cmds env ++ secureSshCmds ++ firewallCmds

/-! ## Stateful swap model for `_configure_swap` (`src/scripts/provision.py`
lines 179-200)

To reason about idempotence, the remote host is given the minimal state
the swap commands touch, with each command's documented effect. -/

/-- Swap-relevant state of the remote host: whether a swap area is active
(what `swapon --show` reports), and counters for the mutations the swap
commands perform. -/
structure SwapMachine where
  swapActive : Bool
  swapfilesCreated : Nat
  fstabSwapEntries : Nat
  swappinessEntries : Nat
deriving Repr, DecidableEq

/-- Effect and result of one remote command on the swap state:
`swapon --show` exits 0 and lists the active swap areas (empty output when
none); `fallocate` creates the backing file; `swapon /swapfile` activates
it; the two `tee -a` commands append their lines; everything else leaves
the swap state unchanged. -/
def swapExec (s : SwapMachine) (cmd : String) : SwapMachine × ExecResult :=
  if cmd = swapShowCmd then
    (s, ⟨0, if s.swapActive then "NAME      TYPE SIZE USED PRIO\n/swapfile file 2G 0B   -2" else "", ""⟩)
  else if cmd = fallocateCmd then
    ({ s with swapfilesCreated := s.swapfilesCreated + 1 }, ⟨0, "", ""⟩)
  else if cmd = swaponCmd then
    ({ s with swapActive := true }, ⟨0, "", ""⟩)
  else if cmd = fstabCmd then
    ({ s with fstabSwapEntries := s.fstabSwapEntries + 1 }, ⟨0, "", ""⟩)
  else if cmd = swappinessCmd then
    ({ s with swappinessEntries := s.swappinessEntries + 1 }, ⟨0, "", ""⟩)
  else (s, ⟨0, "", ""⟩)

/-- Run a list of commands in order on the swap state, ignoring results
(as the mutating branch of `_configure_swap` does). -/
def swapRun (s : SwapMachine) : List String → SwapMachine
  | [] => s
  | c :: cs => swapRun (swapExec s c).1 cs

/-- Embedding of `VMProvisioner._configure_swap` (provision.py lines
179-200) over the stateful swap model: probe with `swapon --show`; if it
exits 0 with nonempty stripped output, return at once; otherwise run the
seven mutating commands.  Returns the final state and the commands sent. -/
def configure_swap (s : SwapMachine) : SwapMachine × List String :=
  let probe := swapExec s swapShowCmd
  if probe.2.code = 0 ∧ pyStrip probe.2.out ≠ "" then (probe.1, [swapShowCmd])
  else (swapRun probe.1 swapMutatingCmds, swapShowCmd :: swapMutatingCmds)

/-! ## Credential-fallback connection loop (`src/__main__.py`,
`provision_vm` lines 347-391) -/

/-- Result of one Python-level call `ssh_client.connect()` inside the
`provision_vm` loop: the returned boolean, or an exception escaping the
call (only the `try` body's first two statements can raise;
connection failures are caught inside `connect` and returned as `False`). -/
inductive PyCallResult where
  | ok (b : Bool)
  | raised
deriving Repr, DecidableEq

/-- State of the `provision_vm` connection loop: the shared retry counter,
the `connected` and `tried_admin_user` flags, the username of the current
`SSHClient`, and the usernames for which a client was constructed so far,
in order. -/
structure ConnLoopState where
  retry_count : Nat
  connected : Bool
  tried_admin_user : Bool
  username : String
  constructed : List String
deriving Repr, DecidableEq

/-- The default cloud-image user (`vm:ssh_user`, default `"ubuntu"` in
config.py). -/
def defaultSshUser : String := "ubuntu"

/-- One-step-at-a-time embedding of the `while retry_count < max_retries
and not connected` loop of `provision_vm` (lines 354-387), with
`max_retries = 15`.  `callResult n` is the outcome of the `n`-th call to
`ssh_client.connect()`.  A returned `False` falls through to the retry
print and increments `retry_count`; an exception enters the `except`
block, where — only if `retry_count >= 3`, an admin user is configured and
not yet tried — the loop disconnects the client, constructs a new
`SSHClient` for the admin user and `continue`s without incrementing
`retry_count`; otherwise the exception path also increments. -/
def connLoopGo (callResult : Nat → PyCallResult) (using_admin_user : Bool)
    (admin_username : String) : Nat → Nat → ConnLoopState → ConnLoopState
  | 0, _, s => s
  | fuel + 1, call, s =>
      if s.retry_count < 15 ∧ s.connected = false then
        match callResult call with
        | .ok true => { s with connected := true }
        | .ok false =>
            connLoopGo callResult using_admin_user admin_username fuel (call + 1)
              { s with retry_count := s.retry_count + 1 }
        | .raised =>
            if 3 ≤ s.retry_count ∧ using_admin_user = true ∧ s.tried_admin_user = false then
              connLoopGo callResult using_admin_user admin_username fuel (call + 1)
                { s with username := admin_username, tried_admin_user := true,
                         constructed := s.constructed ++ [admin_username] }
            else
              connLoopGo callResult using_admin_user admin_username fuel (call + 1)
                { s with retry_count := s.retry_count + 1 }
      else s

/-- The connection loop of `provision_vm`, started from the freshly
constructed default-user client.  The loop performs at most 15 counted
iterations plus one uncounted identity switch, so fuel 32 is exact. -/
def provision_vm_connect_loop (callResult : Nat → PyCallResult) (using_admin_user : Bool)
    (admin_username : String) : ConnLoopState :=
  connLoopGo callResult using_admin_user admin_username 32 0
    ⟨0, false, false, defaultSshUser, [defaultSshUser]⟩

/-! ## Keyword-argument model for the `SSHClient` construction in
`provision_vm` (`src/__main__.py` lines 339-345, `src/scripts/ssh.py`
lines 15-23, `src/config.py` lines 24-34) -/

/-- The parameters accepted by `SSHClient.__init__` (ssh.py lines 15-23). -/
def sshClientInitParams : List String :=
  ["host", "username", "port", "private_key_path", "password", "timeout"]

/-- The keyword arguments `provision_vm` passes when constructing the
per-machine `SSHClient` (main lines 340-345; the same keywords recur in
the admin-user construction at lines 372-377). -/
def provisionVmSshClientKwargs : List String :=
  ["host", "username", "private_key_path", "key_passphrase"]

/-- The keys of the `vm_base_config` dictionary (config.py lines 24-34). -/
def vmBaseConfigKeys : List String :=
  ["description", "template", "cores", "memory", "disk_size", "ssh_public_key",
   "ssh_private_key_path", "ssh_user", "network_bridge"]

/-- Python call semantics for keyword arguments: passing a keyword that is
not a parameter of the callee raises `TypeError`. -/
def pyKwCall (params kwargs : List String) : Except PyErr Unit :=
  match kwargs.find? (fun k => !params.contains k) with
  | some k => .error (.typeError ("unexpected keyword argument " ++ k))
  | none => .ok ()

/-- Python subscript semantics for dictionaries: a missing key raises
`KeyError`. -/
def pyDictGetItem (keys : List String) (k : String) : Except PyErr Unit :=
  if keys.contains k then .ok () else .error (.keyError k)

/-! ## Inventory generation (`src/scripts/ansible.py`,
`AnsibleManager.generate_inventory`, lines 82-183) -/

/-- One node entry as assembled in `setup_k3s_cluster`: a dictionary with
`name` and `ip`. -/
structure NodeInfo where
  name : String
  ip : String
deriving Repr, DecidableEq

/-- Python `dict.get(key, default)` on an association list. -/
def pyGetDefault (d : List (String × String)) (k dflt : String) : String :=
  match d.find? (fun p => p.1 = k) with
  | some p => p.2
  | none => dflt

/-- Python `dict.update`: existing keys are overwritten with the update's
values, new keys are appended in the update's order. -/
def pyDictUpdate (d upd : List (String × String)) : List (String × String) :=
  d.map (fun p =>
      match upd.find? (fun q => q.1 = p.1) with
      | some q => q
      | none => p) ++
    upd.filter (fun q => !(d.any (fun p => p.1 = q.1)))

/-- The `all_vars` dictionary built by `generate_inventory` (ansible.py
lines 144-171) for a given non-`None` `extra_vars`: defaults first, then
`all_vars.update(extra_vars)`, so caller-supplied values win. -/
def inventoryAllVars (master_nodes : List NodeInfo) (k3s_version ansible_user : String)
    (ev : List (String × String)) : List (String × String) :=
  let api_endpoint :=
    match master_nodes with
    | [] => "127.0.0.1"
    | n :: _ => n.ip
  pyDictUpdate
    [("k3s_version", k3s_version),
     ("ansible_user", ansible_user),
     ("systemd_dir", "/etc/systemd/system"),
     ("system_timezone", pyGetDefault ev "system_timezone" "UTC"),
     ("apiserver_endpoint", api_endpoint),
     ("flannel_iface", "eth0"),
     ("k3s_token", pyGetDefault ev "k3s_token" "pulumi-generated-token"),
     ("metal_lb_mode", "layer2"),
     ("metal_lb_type", "native"),
     ("metal_lb_ip_range", pyGetDefault ev "metal_lb_ip_range" "192.168.1.150-192.168.1.160"),
     ("extra_server_args", "--disable servicelb --disable traefik --tls-san " ++ api_endpoint),
     ("extra_agent_args", ""),
     ("ansible_ssh_private_key_file", pyGetDefault ev "ansible_ssh_private_key_file" "~/.ssh/id_rsa")]
    ev

/-- Embedding of `AnsibleManager.generate_inventory` (ansible.py lines
82-183).  When the working copy is absent the method returns `False`.
Otherwise it writes `hosts.ini` and then evaluates
`extra_vars.get("system_timezone", "UTC")` (line 145): with the default
`extra_vars=None` this raises `AttributeError` before any boolean can be
returned.  With a dictionary supplied, the `all_vars` document is built
and the method returns `True`. -/
def generate_inventory (localPathExists : Bool) (master_nodes worker_nodes : List NodeInfo)
    (k3s_version ansible_user : String) (extra_vars : Option (List (String × String))) :
    Except PyErr (Bool × List (String × String)) :=
  let _ := worker_nodes
  if localPathExists then
    match extra_vars with
    | none =>
        .error (.attributeError "NoneType object has no attribute get")
    | some ev =>
        .ok (true, inventoryAllVars master_nodes k3s_version ansible_user ev)
  else .ok (false, [])

/-! ## Fleet orchestration control flow (`src/__main__.py`,
`setup_k3s_cluster.on_ips_available` lines 466-623 and the export loops
at lines 632-640) -/

/-- The per-machine provisioning loop of `on_ips_available`: walks the
results in declared order and returns `false` at the first failed
machine (the `return` at lines 501/507). -/
def provisionAllSucceed : List Bool → Bool
  | [] => true
  | r :: rs => if r then provisionAllSucceed rs else false

/-- Control-flow embedding of `on_ips_available` (main lines 466-623),
reporting whether `ansible.run_playbook()` is ever invoked.  The masters
are provisioned in order, then the workers; the first failure returns from
the callback before any Ansible step.  Only when every machine provisioned
and `use_ansible` is set does the flow clone the repository and generate
the inventory, and only when both succeed is the playbook invoked. -/
def on_ips_available_invokes_playbook (masterResults workerResults : List Bool)
    (use_ansible clone_ok inventory_ok : Bool) : Bool :=
  if provisionAllSucceed masterResults then
    if provisionAllSucceed workerResults then
      if use_ansible then
        if clone_ok then
          if inventory_ok then true else false
        else false
      else false
    else false
  else false

/-- The values exported for one declared machine: platform ID, logical
name, resolved address (main lines 632-640). -/
structure VMExportInfo where
  vm_id : Nat
  ip : String
deriving Repr, DecidableEq

/-- One role's export loop (`for i, vm in enumerate(...)`): for the
machine at position `i` (counting from `start`), the keys
`<keyPfx>_<i+1>_id`, `<keyPfx>_<i+1>_name` and `<keyPfx>_<i+1>_ip` are
exported. -/
def exportEntriesGo (keyPfx namePfx : String) : Nat → List VMExportInfo → List (String × String)
  | _, [] => []
  | i, vm :: rest =>
      (keyPfx ++ "_" ++ toString (i + 1) ++ "_id", toString vm.vm_id) ::
      (keyPfx ++ "_" ++ toString (i + 1) ++ "_name", namePfx ++ "-" ++ toString (i + 1)) ::
      (keyPfx ++ "_" ++ toString (i + 1) ++ "_ip", vm.ip) ::
      exportEntriesGo keyPfx namePfx (i + 1) rest

/-- The module-level export loops (main lines 632-640): every declared
master, then every declared worker, gets its three exports.  These loops
run unconditionally at the top level and take no provisioning or bootstrap
outcome as input. -/
def pulumi_exports (masterNamePfx workerNamePfx : String)
    (masters workers : List VMExportInfo) : List (String × String) :=
  exportEntriesGo "master" masterNamePfx 0 masters ++
    exportEntriesGo "worker" workerNamePfx 0 workers

/-- A remote host on which every command succeeds except the timezone
command, which exits 1 (used to exhibit that the timezone step's exit
code is ignored). -/
def envTz : Env := fun cmd => if cmd = timezoneCmd then ⟨1, "", ""⟩ else ⟨0, "", ""⟩

/-- A remote host on which every command succeeds with empty output. -/
def envOk : Env := fun _ => ⟨0, "", ""⟩

/-! ## Theorems settling the claims -/

/-- Claim C4: on a machine whose guest-agent flag is false, the verb
`shutdown` is downgraded to `stop` and `reboot` to `reset` before
submission; with the flag true, `shutdown` and `reboot` pass through
unchanged.  Stated both on the downgrade stage itself and on the verb
actually submitted from the `running` state. -/
theorem claim_C4_power_downgrade :
    power_operation false .shutdown "running" = some "stop" ∧
    power_operation false .reboot "running" = some "reset" ∧
    power_operation true .shutdown "running" = some "shutdown" ∧
    power_operation true .reboot "running" = some "reboot" ∧
    downgradeOp false .shutdown = .stop ∧
    downgradeOp false .reboot = .reset ∧
    (∀ op : VMPowerOp, downgradeOp true op = op) ∧
    (∀ s : String, power_operation false .shutdown s = power_operation false .stop s) ∧
    (∀ s : String, power_operation false .reboot s = power_operation false .reset s) :=
  ⟨rfl, rfl, rfl, rfl, rfl, rfl, fun _ => rfl, fun _ => rfl, fun _ => rfl⟩

/-- Claim C5: `power_operation` is state-aware: `start` on a running
machine submits nothing, `stop` on a non-running machine submits nothing,
and `reset`/`reboot` on a non-running machine are upgraded to `start`,
for either value of the guest-agent flag. -/
theorem claim_C5_power_state_awareness :
    (∀ a : Bool, power_operation a .start "running" = none) ∧
    (∀ (a : Bool) (s : String), s ≠ "running" →
       power_operation a .stop s = none ∧
       power_operation a .reset s = some "start" ∧
       power_operation a .reboot s = some "start") := by
  constructor
  · intro a
    cases a <;> rfl
  · intro a s h
    cases a <;> simp [power_operation, downgradeOp, h]

/-- Witness for claim C5 at the guest-agent-off machine in state
`stopped`. -/
theorem claim_C5_power_state_awareness_witness :
    power_operation false .stop "stopped" = none ∧
    power_operation false .reset "stopped" = some "start" ∧
    power_operation false .reboot "stopped" = some "start" :=
  claim_C5_power_state_awareness.2 false "stopped" (by decide)

/-- Claim C1 (code bug): in `provision_vm`, when every `connect()` call
returns `False` — the normal failure mode, since `SSHClient.connect`
catches every connection exception internally and returns a boolean — the
loop exhausts all 15 counted attempts on the primary identity and never
reaches the identity switch, which sits in the `except` branch: the
`tried_admin_user` flag stays false, no admin channel is ever constructed,
and the loop ends unconnected, even with an admin user configured. -/
theorem claim_C1_fallback_unreachable_on_failed_connect :
    provision_vm_connect_loop (fun _ => .ok false) true "admin" =
      ⟨15, false, false, defaultSshUser, [defaultSshUser]⟩ := by
  decide

/-- Claim C8 (code bug): the `SSHClient` construction in `provision_vm`
cannot succeed: `key_passphrase` is not a parameter of
`SSHClient.__init__`, so the keyword call raises `TypeError`, and
`vm_base_config` has no `ssh_key_passphrase` key, so the subscript raises
`KeyError` even earlier. -/
theorem claim_C8_ssh_client_construction_raises :
    pyKwCall sshClientInitParams provisionVmSshClientKwargs =
      .error (.typeError "unexpected keyword argument key_passphrase") ∧
    pyDictGetItem vmBaseConfigKeys "ssh_key_passphrase" =
      .error (.keyError "ssh_key_passphrase") :=
  ⟨rfl, rfl⟩

/-- Claim C7 counterexample: on a channel whose `connect` was called and
failed every attempt — so no successful connect has occurred — the
operations do not raise: `connect` left `self.client` set, so
`execute_command` proceeds and returns the transport-failure triple and
`upload_file` returns `False`. -/
theorem claim_C7_counterexample :
    (SSHClient.connect freshSSHClient (fun _ => false) 10).2 = false ∧
    ((SSHClient.connect freshSSHClient (fun _ => false) 10).1).clientSet = true ∧
    SSHClient.execute_command (SSHClient.connect freshSSHClient (fun _ => false) 10).1
        (.raised "connection refused") = .ok (-1, "", "connection refused") ∧
    SSHClient.upload_file (SSHClient.connect freshSSHClient (fun _ => false) 10).1
        (.raised "connection refused") = .ok false :=
  ⟨rfl, rfl, rfl, rfl⟩

/-- Claim C7 as amended: `execute_command` and the file transfers fail
fast with the `RuntimeError` exactly when the client field is unset —
which holds for a fresh channel and after `disconnect`, but not after a
failed `connect`, since `connect` sets the client field before its
attempt loop regardless of the outcome. -/
theorem claim_C7_fail_fast_iff_client_unset :
    (∀ (st : SSHClientState) (o : SSHClient.ExecOutcome) (t : SSHClient.TransferOutcome),
       st.clientSet = false →
         SSHClient.execute_command st o = .error SSHClient.errNotConnected ∧
         SSHClient.upload_file st t = .error SSHClient.errNotConnected ∧
         SSHClient.download_file st t = .error SSHClient.errNotConnected) ∧
    freshSSHClient.clientSet = false ∧
    (∀ st : SSHClientState, (SSHClient.disconnect st).clientSet = false) ∧
    (∀ (st : SSHClientState) (outcome : Nat → Bool) (n : Nat),
       ((SSHClient.connect st outcome n).1).clientSet = true) := by
  refine ⟨?_, rfl, fun _ => rfl, fun _ _ _ => rfl⟩
  intro st o t h
  simp [SSHClient.execute_command, SSHClient.upload_file, SSHClient.download_file, h]

/-- Witness for the amended claim C7 on a fresh (never-connected)
channel. -/
theorem claim_C7_fail_fast_iff_client_unset_witness :
    SSHClient.execute_command freshSSHClient (.result 0 "" "") =
      .error SSHClient.errNotConnected ∧
    SSHClient.upload_file freshSSHClient .done = .error SSHClient.errNotConnected ∧
    SSHClient.download_file freshSSHClient .done = .error SSHClient.errNotConnected :=
  claim_C7_fail_fast_iff_client_unset.1 freshSSHClient (.result 0 "" "") .done rfl

/-- Claim C10: `generate_inventory` with the working copy present, a
non-empty master list and the optional `extra_vars` left at its default
`None` raises `AttributeError` (from `extra_vars.get` on `None`) instead
of returning a boolean. -/
theorem claim_C10_generate_inventory_none_extra_vars :
    ∀ (masters workers : List NodeInfo) (ver user : String),
      masters ≠ [] →
      generate_inventory true masters workers ver user none =
        .error (.attributeError "NoneType object has no attribute get") := by
  intro _ _ _ _ _
  rfl

/-- Witness for claim C10 at a one-master, one-worker fleet. -/
theorem claim_C10_generate_inventory_none_extra_vars_witness :
    generate_inventory true [⟨"k3s-master-1", "10.0.0.100"⟩] [⟨"k3s-worker-1", "10.0.0.101"⟩]
        "v1.29.2+k3s1" "ubuntu" none =
      .error (.attributeError "NoneType object has no attribute get") :=
  claim_C10_generate_inventory_none_extra_vars
    [⟨"k3s-master-1", "10.0.0.100"⟩] [⟨"k3s-worker-1", "10.0.0.101"⟩]
    "v1.29.2+k3s1" "ubuntu" (by simp)

/-- Claim C9: the swap step is idempotent: with swap already active it
performs only the probe and changes nothing; from a swap-less state,
running it twice creates exactly one swap file, the second invocation
detecting the active swap and performing zero mutating commands. -/
theorem claim_C9_swap_idempotent :
    ∀ s : SwapMachine,
      (s.swapActive = true → configure_swap s = (s, [swapShowCmd])) ∧
      (s.swapActive = false →
        (configure_swap s).1.swapActive = true ∧
        (configure_swap s).1.swapfilesCreated = s.swapfilesCreated + 1 ∧
        configure_swap (configure_swap s).1 = ((configure_swap s).1, [swapShowCmd]) ∧
        (configure_swap (configure_swap s).1).1.swapfilesCreated = s.swapfilesCreated + 1) := by
  intro s
  obtain ⟨act, a, b, c⟩ := s
  cases act
  · exact ⟨fun h => by simp at h, fun _ => ⟨rfl, rfl, rfl, rfl⟩⟩
  · exact ⟨fun _ => rfl, fun h => by simp at h⟩

/-- Witness for claim C9: both branches at concrete swap states. -/
theorem claim_C9_swap_idempotent_witness :
    configure_swap ⟨true, 1, 1, 1⟩ = (⟨true, 1, 1, 1⟩, [swapShowCmd]) ∧
    (configure_swap (configure_swap ⟨false, 0, 0, 0⟩).1).1.swapfilesCreated = 1 :=
  ⟨(claim_C9_swap_idempotent ⟨true, 1, 1, 1⟩).1 rfl,
   ((claim_C9_swap_idempotent ⟨false, 0, 0, 0⟩).2 rfl).2.2.2⟩

/-- Claim C6: `calculate_ip_addresses` is a pure function allocating
`num_masters + num_workers` consecutive addresses from
`network_address + start_ip_offset`, the first `num_masters` to masters in
order and the rest to workers in order — with the spec's concrete example
— and returning `([], [])` for a malformed network string instead of
raising. -/
theorem claim_C6_calculate_ip_addresses :
    calculate_ip_addresses "10.0.0.0/24" "10.0.0.1" 100 2 3 =
      (["10.0.0.100", "10.0.0.101"], ["10.0.0.102", "10.0.0.103", "10.0.0.104"]) ∧
    (∀ (network gw : String) (start nm nw addr len : Nat),
       parseIPv4Network network = some (addr, len) →
       addr + start + (nm + nw) < 4294967296 →
       calculate_ip_addresses network gw start nm nw =
         ((List.range nm).map (fun i => ipToString (addr + start + i)),
          (List.range nw).map (fun j => ipToString (addr + start + nm + j)))) ∧
    (∀ (network gw : String) (start nm nw : Nat),
       parseIPv4Network network = none →
       calculate_ip_addresses network gw start nm nw = ([], [])) := by
  refine ⟨by decide, ?_, ?_⟩
  · intro network gw start nm nw addr len h1 h2
    have hneg : ¬(0 < nm + nw ∧ 4294967296 ≤ addr + start + (nm + nw - 1)) := by omega
    simp only [calculate_ip_addresses, h1]
    rw [if_neg hneg]
    have htake :
        (((List.range (nm + nw)).map (fun i => ipToString (addr + start + i))).take nm) =
          (List.range nm).map (fun i => ipToString (addr + start + i)) := by
      rw [← List.map_take, List.take_range, min_eq_left (Nat.le_add_right nm nw)]
    have hdrop :
        (((List.range (nm + nw)).map (fun i => ipToString (addr + start + i))).drop nm) =
          (List.range nw).map (fun j => ipToString (addr + start + nm + j)) := by
      rw [← List.map_drop, List.range_add, List.drop_left' (List.length_range nm),
        List.map_map]
      refine List.map_congr_left ?_
      intro j _
      show ipToString (addr + start + (nm + j)) = ipToString (addr + start + nm + j)
      congr 1
      omega
    exact Prod.ext htake hdrop
  · intro network gw start nm nw h
    simp [calculate_ip_addresses, h]

/-- Witness for claim C6: the general allocation theorem applied at the
spec's example network and at a malformed network string. -/
theorem claim_C6_calculate_ip_addresses_witness :
    calculate_ip_addresses "10.0.0.0/24" "10.0.0.1" 100 2 3 =
      ((List.range 2).map (fun i => ipToString (167772160 + 100 + i)),
       (List.range 3).map (fun j => ipToString (167772160 + 100 + 2 + j))) ∧
    calculate_ip_addresses "bogus" "10.0.0.1" 100 2 3 = ([], []) :=
  ⟨claim_C6_calculate_ip_addresses.2.1 "10.0.0.0/24" "10.0.0.1" 100 2 3 167772160 24
      (by decide) (by decide),
   claim_C6_calculate_ip_addresses.2.2 "bogus" "10.0.0.1" 100 2 3 (by decide)⟩

/-- A provisioning failure recorded anywhere in a result list makes the
early-returning loop report failure. -/
theorem provisionAllSucceed_eq_false {l : List Bool} (h : false ∈ l) :
    provisionAllSucceed l = false := by
  induction l with
  | nil => simp at h
  | cons r rs ih =>
    rcases List.mem_cons.mp h with h1 | h2
    · rw [← h1]
      rfl
    · cases r <;> simp [provisionAllSucceed, ih h2]

/-- Each machine contributes exactly three export entries. -/
theorem exportEntriesGo_length (k n : String) :
    ∀ (l : List VMExportInfo) (i : Nat), (exportEntriesGo k n i l).length = 3 * l.length := by
  intro l
  induction l with
  | nil => intro i; rfl
  | cons vm rest ih =>
    intro i
    simp only [exportEntriesGo, List.length_cons, ih (i + 1)]
    omega

/-- The address export of the machine at position `j` (with keys counted
from `i`) is among the role's export entries. -/
theorem exportEntriesGo_mem_ip (k n : String) :
    ∀ (l : List VMExportInfo) (i j : Nat) (h : j < l.length),
      (k ++ "_" ++ toString (i + j + 1) ++ "_ip", (l.get ⟨j, h⟩).ip) ∈
        exportEntriesGo k n i l := by
  intro l
  induction l with
  | nil => intro i j h; simp at h
  | cons vm rest ih =>
    intro i j h
    cases j with
    | zero =>
      simp only [exportEntriesGo, List.get, Nat.add_zero]
      exact List.mem_cons_of_mem _ (List.mem_cons_of_mem _ (List.mem_cons_self _ _))
    | succ j' =>
      have h' : j' < rest.length := by simpa using h
      have hmem := ih (i + 1) j' h'
      rw [show i + (j' + 1) + 1 = i + 1 + j' + 1 by omega]
      exact List.mem_cons_of_mem _ (List.mem_cons_of_mem _
        (List.mem_cons_of_mem _ hmem))

/-- Claim C3: a provisioning failure on any machine means the Ansible
playbook (the cluster bootstrap tool) is never invoked in that run, while
the module-level export loops still produce the three exports — platform
ID, logical name, resolved address — for every declared machine, the
exports being a function of the declared machine lists alone. -/
theorem claim_C3_failure_skips_bootstrap_exports_persist :
    (∀ (mr wr : List Bool) (ua ck ik : Bool),
       false ∈ mr ∨ false ∈ wr →
       on_ips_available_invokes_playbook mr wr ua ck ik = false) ∧
    (∀ (mp wp : String) (ms ws : List VMExportInfo),
       (pulumi_exports mp wp ms ws).length = 3 * (ms.length + ws.length)) ∧
    (∀ (mp wp : String) (ms ws : List VMExportInfo) (i : Nat) (h : i < ms.length),
       ("master_" ++ toString (i + 1) ++ "_ip", (ms.get ⟨i, h⟩).ip) ∈
         pulumi_exports mp wp ms ws) ∧
    (∀ (mp wp : String) (ms ws : List VMExportInfo) (j : Nat) (h : j < ws.length),
       ("worker_" ++ toString (j + 1) ++ "_ip", (ws.get ⟨j, h⟩).ip) ∈
         pulumi_exports mp wp ms ws) := by
  refine ⟨?_, ?_, ?_, ?_⟩
  · intro mr wr ua ck ik h
    rcases h with h | h
    · simp [on_ips_available_invokes_playbook, provisionAllSucceed_eq_false h]
    · rw [on_ips_available_invokes_playbook, provisionAllSucceed_eq_false h]
      cases provisionAllSucceed mr <;> simp
  · intro mp wp ms ws
    simp only [pulumi_exports, List.length_append, exportEntriesGo_length]
    omega
  · intro mp wp ms ws i h
    have := exportEntriesGo_mem_ip "master" mp ms 0 i h
    rw [Nat.zero_add] at this
    exact List.mem_append_left _ this
  · intro mp wp ms ws j h
    have := exportEntriesGo_mem_ip "worker" wp ws 0 j h
    rw [Nat.zero_add] at this
    exact List.mem_append_right _ this

/-- Witness for claim C3: 2 masters + 2 workers with worker-2 failing —
the playbook is not invoked, yet all 12 export entries exist and worker-2's
address export is among them. -/
theorem claim_C3_failure_skips_bootstrap_exports_persist_witness :
    on_ips_available_invokes_playbook [true, true] [true, false] true true true = false ∧
    (pulumi_exports "k3s-master" "k3s-worker"
        [⟨101, "10.0.0.100"⟩, ⟨102, "10.0.0.101"⟩]
        [⟨103, "10.0.0.102"⟩, ⟨104, "10.0.0.103"⟩]).length = 12 ∧
    ("worker_2_ip", "10.0.0.103") ∈
      pulumi_exports "k3s-master" "k3s-worker"
        [⟨101, "10.0.0.100"⟩, ⟨102, "10.0.0.101"⟩]
        [⟨103, "10.0.0.102"⟩, ⟨104, "10.0.0.103"⟩] :=
  ⟨claim_C3_failure_skips_bootstrap_exports_persist.1 [true, true] [true, false] true true true
      (Or.inr (by simp)),
   claim_C3_failure_skips_bootstrap_exports_persist.2.1 "k3s-master" "k3s-worker"
      [⟨101, "10.0.0.100"⟩, ⟨102, "10.0.0.101"⟩] [⟨103, "10.0.0.102"⟩, ⟨104, "10.0.0.103"⟩],
   claim_C3_failure_skips_bootstrap_exports_persist.2.2.2 "k3s-master" "k3s-worker"
      [⟨101, "10.0.0.100"⟩, ⟨102, "10.0.0.101"⟩] [⟨103, "10.0.0.102"⟩, ⟨104, "10.0.0.103"⟩]
      1 (by decide)⟩

/-- When the username is nonempty, a password or key is supplied, and each
checked admin command exits 0, `_create_admin_user` succeeds with its full
command trace. -/
theorem create_admin_user_success (env : Env) (u : String) (ap ak : Option String)
    (hu : u ≠ "") (hpk : ap ≠ none ∨ ak ≠ none)
    (h1 : (env (adduserCmd u)).code = 0) (h2 : (env (usermodCmd u)).code = 0)
    (h3 : ∀ p, ap = some p → (env (chpasswdCmd u p)).code = 0)
    (h4 : ∀ k, ak = some k → (env (authKeysCmd u k)).code = 0)
    (h5 : (env (sudoersCmd u)).code = 0) :
    create_admin_user env u ap ak = (true, adminFullTrace u ap ak) := by
  cases ap with
  | none =>
    cases ak with
    | none => simp at hpk
    | some k =>
      have hk := h4 k rfl
      simp [create_admin_user, adminKeyStep, adminSudoersStep, adminFullTrace,
        hu, h1, h2, hk, h5]
  | some p =>
    have hp := h3 p rfl
    cases ak with
    | none =>
      simp [create_admin_user, adminKeyStep, adminSudoersStep, adminFullTrace,
        hu, h1, h2, hp, h5]
    | some k =>
      have hk := h4 k rfl
      simp [create_admin_user, adminKeyStep, adminSudoersStep, adminFullTrace,
        hu, h1, h2, hp, hk, h5]

/-- Claim C2 counterexample: on a host where the timezone command exits 1
and every other command exits 0, `provision` still returns `True` and the
later firewall commands are still executed — a nonzero exit code in the
timezone step neither aborts the sequence nor skips the remaining steps. -/
theorem claim_C2_counterexample :
    (envTz timezoneCmd).code = 1 ∧
    (provision envTz none none none).ok = true ∧
    "sudo ufw --force enable" ∈ (provision envTz none none none).trace :=
  ⟨rfl, rfl, by decide⟩

/-- Claim C2 as amended: the steps run in the fixed order, and a nonzero
exit code aborts the sequence (skipping the rest) only in the checked
steps — package update, baseline install, the checked admin-user commands,
and the guest-agent install; once those succeed, the sequence returns
`True` with the full ordered trace regardless of the exit codes of the
timezone/locale, swap, SSH-hardening and firewall commands. -/
theorem claim_C2_order_and_checked_aborts :
    ∀ (env : Env) (au ap ak : Option String),
      ((env updateCmd).code ≠ 0 →
        provision env au ap ak = ⟨false, [updateCmd], false⟩) ∧
      ((env updateCmd).code = 0 → (env installEssentialsCmd).code ≠ 0 →
        provision env au ap ak = ⟨false, [updateCmd, installEssentialsCmd], false⟩) ∧
      ((env updateCmd).code = 0 → (env installEssentialsCmd).code = 0 → au = none →
        (env agentInstallCmd).code ≠ 0 →
        provision env au ap ak =
          ⟨false, [updateCmd, installEssentialsCmd, agentInstallCmd], false⟩) ∧
      ((∀ c ∈ checkedCmds au ap ak, (env c).code = 0) →
        (au = none ∨ ∃ u, au = some u ∧ u ≠ "" ∧ (ap ≠ none ∨ ak ≠ none)) →
        provision env au ap ak = ⟨true, provisionFullTrace env au ap ak, true⟩) := by
  intro env au ap ak
  refine ⟨?_, ?_, ?_, ?_⟩
  · intro h
    simp [provision, update_packages, h]
  · intro h1 h2
    simp [provision, update_packages, install_essentials, h1, h2]
  · intro h1 h2 hau h3
    subst hau
    simp [provision, update_packages, install_essentials, install_qemu_agent, h1, h2, h3]
  · intro hall hvalid
    rcases hvalid with hau | ⟨u, hau, hu, hpk⟩
    · subst hau
      simp only [checkedCmds, List.nil_append, List.append_nil, List.cons_append,
        List.forall_mem_cons, List.forall_mem_nil, and_true] at hall
      obtain ⟨hU, hE, hA1, hA2, hA3⟩ := hall
      simp [provision, update_packages, install_essentials, install_qemu_agent,
        provisionFullTrace, hU, hE, hA1, hA2, hA3]
    · subst hau
      have hU : (env updateCmd).code = 0 := hall _ (by simp [checkedCmds])
      have hE : (env installEssentialsCmd).code = 0 := hall _ (by simp [checkedCmds])
      have hA1 : (env agentInstallCmd).code = 0 := hall _ (by simp [checkedCmds])
      have hA2 : (env agentEnableCmd).code = 0 := hall _ (by simp [checkedCmds])
      have hA3 : (env agentStartCmd).code = 0 := hall _ (by simp [checkedCmds])
      have hAdd : (env (adduserCmd u)).code = 0 := hall _ (by simp [checkedCmds])
      have hMod : (env (usermodCmd u)).code = 0 := hall _ (by simp [checkedCmds])
      have hSud : (env (sudoersCmd u)).code = 0 := hall _ (by simp [checkedCmds])
      have hP : ∀ p, ap = some p → (env (chpasswdCmd u p)).code = 0 := by
        intro p hp
        subst hp
        exact hall _ (by simp [checkedCmds])
      have hK : ∀ k, ak = some k → (env (authKeysCmd u k)).code = 0 := by
        intro k hk
        subst hk
        exact hall _ (by simp [checkedCmds])
      have hadmin := create_admin_user_success env u ap ak hu hpk hAdd hMod hP hK hSud
      simp [provision, update_packages, install_essentials, install_qemu_agent,
        provisionFullTrace, hadmin, hU, hE, hA1, hA2, hA3]

/-- Witness for the amended claim C2: the all-success host with a fully
configured admin user. -/
theorem claim_C2_order_and_checked_aborts_witness :
    provision envOk (some "admin") (some "pw") (some "ssh-ed25519 AAAA admin") =
      ⟨true, provisionFullTrace envOk (some "admin") (some "pw")
        (some "ssh-ed25519 AAAA admin"), true⟩ :=
  (claim_C2_order_and_checked_aborts envOk (some "admin") (some "pw")
      (some "ssh-ed25519 AAAA admin")).2.2.2
    (fun c _ => rfl)
    (Or.inr ⟨"admin", rfl, by simp, Or.inl (by simp)⟩)

end PulumiK3s
